import Mathlib

/-!
Verification of the GCP Pub/Sub subscriber core of the gopack library
(`gcp/pubsub`: `config.go` and the v2 subscriber with `ensureTopic`,
`ensureSubscription`, `applyDefaults`, `NewSubscriber`, `Consume`).

The Go code is shallowly embedded: remote Pub/Sub admin calls are modelled
by a `Client` record of response functions, and every admin operation also
returns the list of remote calls it performed; the `Consume` select loop is
modelled as a fold over the sequence of events (message arrivals and
context cancellation) that the loop observes; Go durations are nanosecond
counts; Go `error` values are `GoError`, distinguishing gRPC status errors
(recognised by `status.FromError`) from plain errors.
-/

namespace Gopack.PubSub

/-- gRPC status codes as classified by `ensureSubscription`'s switch:
`AlreadyExists` and `NotFound` are handled specially, every other code
(represented by its numeric value) falls through to plain propagation. -/
inductive StatusCode where
  | alreadyExists
  | notFound
  | other (code : Nat)
deriving DecidableEq, Repr

/-- A Go `error` value: either a gRPC status error (for which
`status.FromError` returns ok) or a plain error (e.g. from `errors.New`
or `fmt.Errorf`). -/
inductive GoError where
  | statusErr (code : StatusCode) (msg : String)
  | plain (msg : String)
deriving DecidableEq, Repr

/-- `pubsubpb.RetryPolicy`: minimum and maximum backoff durations
(`durationpb` values, modelled as nanosecond counts). -/
structure RetryPolicy where
  minimumBackoff : Nat
  maximumBackoff : Nat
deriving DecidableEq, Repr

/-- `time.Millisecond` in nanoseconds. -/
def millisecond : Nat := 1000000

/-- `time.Second` in nanoseconds. -/
def second : Nat := 1000000000

/-- `MinimumBackoff = 200 * time.Millisecond` (subscriber constants). -/
def MinimumBackoff : Nat := 200 * millisecond

/-- `MaximumBackoff = 600 * time.Second` (subscriber constants). -/
def MaximumBackoff : Nat := 600 * second

/-- `pubsubpb.Topic`. The Go struct is a protobuf message with further
fields (labels, storage policy, …) that this library never sets or reads
individually; `ensureTopic` only constructs topics carrying a name and
compares whole topics against the zero message with `proto.Equal`, so the
fields it can distinguish are the name together with one abstract
component standing for all remaining proto fields (zero-valued in every
topic this code constructs). -/
structure Topic where
  name : String
  /-- Stands for all remaining proto fields; `0` is their zero value. -/
  restFields : Nat := 0
deriving DecidableEq, Repr

/-- The zero-value `new(pubsubpb.Topic)` message. -/
def emptyTopic : Topic := { name := "" }

/-- `isEmptyTopic`: `t == nil || proto.Equal(t, new(pubsubpb.Topic))`.
A Go `*pubsubpb.Topic` is `Option Topic`, `none` being the nil pointer. -/
def isEmptyTopic : Option Topic → Bool
  | none => true
  | some t => decide (t = emptyTopic)

/-- `pubsubpb.Subscription` restricted to the fields this library sets or
reads: `Name`, `Topic`, `AckDeadlineSeconds`, `EnableMessageOrdering`,
`RetryPolicy` (a nil-able proto message, hence `Option`). -/
structure Subscription where
  name : String
  topic : String
  ackDeadlineSeconds : Nat := 0
  enableMessageOrdering : Bool := false
  retryPolicy : Option RetryPolicy := none
deriving DecidableEq, Repr

/-- `pubsub.ReceiveSettings` restricted to representative tuning fields;
the library only copies whole values of this type. -/
structure ReceiveSettings where
  maxOutstandingMessages : Int
  maxOutstandingBytes : Int
  numGoroutines : Nat
deriving DecidableEq, Repr

/-- `pubsub.DefaultReceiveSettings`. -/
def DefaultReceiveSettings : ReceiveSettings :=
  { maxOutstandingMessages := 1000
    maxOutstandingBytes := 1000000000
    numGoroutines := 10 }

/-- `SubscriberConfig` (config.go). The logger is an interface used only
for nil-checking and diagnostics, so it is modelled by its presence. -/
structure SubscriberConfig where
  subscriptionConfig : Option Subscription
  receiveSettings : Option ReceiveSettings := none
  logger : Option Unit := none
deriving DecidableEq, Repr

/-- One remote Pub/Sub admin call, recorded so that theorems can speak
about which remote operations an execution performed. -/
inductive RemoteCall where
  | getTopic (name : String)
  | createTopic (name : String)
  | createSubscription (cfg : Subscription)
  | updateSubscription (cfg : Subscription)
deriving DecidableEq, Repr

/-- The remote Pub/Sub service, modelled by the responses it gives to each
admin call (`client.TopicAdminClient` / `client.SubscriptionAdminClient`).
`getTopic`/`createTopic` return a possibly-nil `*pubsubpb.Topic` or an
error; `createSubscription`/`updateSubscription` return the reconciled
subscription or an error. -/
structure Client where
  getTopic : String → Except GoError (Option Topic)
  createTopic : String → Except GoError (Option Topic)
  createSubscription : Subscription → Except GoError Subscription
  updateSubscription : Subscription → Except GoError Subscription

/-- Modelled from the spec: the `validation` package used by
`SubscriberConfig.Validate` (`validation.New(validation.FailFast()).
AddAssertion(cond, msg)...Validate()`) is not under src/ — only its caller
is. Per §4.1 of the spec the chain is evaluated in fail-fast mode and
"return[s] the first violated assertion as an error, or nil if all hold". -/
def failFastValidate (assertions : List (Bool × String)) : Option GoError :=
  match assertions.find? (fun a => !a.1) with
  | some a => some (GoError.plain a.2)
  | none => none

instance : Inhabited Subscription := ⟨{ name := "", topic := "" }⟩

/-- `(*SubscriberConfig) Validate` (config.go): the four assertions, in
source order. -/
def SubscriberConfig.Validate (c : SubscriberConfig) : Option GoError :=
  failFastValidate
    [ (c.subscriptionConfig.isSome, "subscription config is not set")
    , (c.logger.isSome, "subscription logger is not set")
    , (c.subscriptionConfig.isSome &&
        decide ((c.subscriptionConfig.getD default).topic ≠ ""),
       "subscription topic is not set")
    , (c.subscriptionConfig.isSome &&
        decide ((c.subscriptionConfig.getD default).name ≠ ""),
       "subscription id is not set") ]

/-- `ensureTopic` (v2 subscriber): fetch the topic; propagate a fetch
error; if the fetched topic is empty, create it, propagating a creation
error, and report "topic … does not exist" if the created topic is also
empty. Returns the Go result together with the remote calls performed. -/
def ensureTopic (client : Client) (topicName : String) :
    Except GoError Unit × List RemoteCall :=
  match client.getTopic topicName with
  | .error e => (.error e, [RemoteCall.getTopic topicName])
  | .ok t =>
    if isEmptyTopic t then
      match client.createTopic topicName with
      | .error e =>
          (.error e, [RemoteCall.getTopic topicName, RemoteCall.createTopic topicName])
      | .ok t2 =>
        if isEmptyTopic t2 then
          (.error (GoError.plain ("topic " ++ topicName ++ " does not exist")),
           [RemoteCall.getTopic topicName, RemoteCall.createTopic topicName])
        else
          (.ok (), [RemoteCall.getTopic topicName, RemoteCall.createTopic topicName])
    else
      (.ok (), [RemoteCall.getTopic topicName])

/-- `ensureSubscription` (v2 subscriber): attempt creation; on an
`AlreadyExists` status error switch to `UpdateSubscription` with the same
spec and return its result; on a `NotFound` status error return a
descriptive error naming the missing topic; propagate anything else. -/
def ensureSubscription (client : Client) (cfg : Subscription) :
    Except GoError Subscription × List RemoteCall :=
  match client.createSubscription cfg with
  | .ok sub => (.ok sub, [RemoteCall.createSubscription cfg])
  | .error e =>
    match e with
    | .statusErr .alreadyExists _ =>
        (client.updateSubscription cfg,
         [RemoteCall.createSubscription cfg, RemoteCall.updateSubscription cfg])
    | .statusErr .notFound _ =>
        (.error (GoError.plain ("topic " ++ cfg.topic ++ " not found")),
         [RemoteCall.createSubscription cfg])
    | _ => (.error e, [RemoteCall.createSubscription cfg])

/-- `applyDefaults` (v2 subscriber): if `cfg.SubscriptionConfig.RetryPolicy`
is nil, set it to the package default backoffs; otherwise leave the config
untouched. Go dereferences `cfg.SubscriptionConfig` unconditionally (the
constructor only calls this after validation has established presence);
the `none` branch here corresponds to that never-taken nil dereference. -/
def applyDefaults (cfg : SubscriberConfig) : SubscriberConfig :=
  match cfg.subscriptionConfig with
  | none => cfg
  | some sc =>
    match sc.retryPolicy with
    | some _ => cfg
    | none =>
        { cfg with
          subscriptionConfig := some
            { sc with
              retryPolicy := some
                { minimumBackoff := MinimumBackoff,
                  maximumBackoff := MaximumBackoff } } }

/-- The `Subscriber` value built by the constructor: the bound subscriber
handle (`client.Subscriber(sub.GetName())`) with its receive settings. -/
structure SubscriberHandle where
  subscriptionName : String
  receiveSettings : ReceiveSettings
deriving DecidableEq, Repr

/-- `NewSubscriber` (v2 subscriber). Takes the caller's possibly-nil
config; returns the Go result, the remote calls performed, and the
caller's view of the config object after the call (Go mutates the shared
`*SubscriberConfig` in place via `applyDefaults`). The inner `none`
branches are unreachable: validation guarantees the subscription config is
present (Go would nil-panic there). -/
def NewSubscriber (client : Client) (cfg? : Option SubscriberConfig) :
    Except GoError SubscriberHandle × List RemoteCall × Option SubscriberConfig :=
  match cfg? with
  | none => (.error (GoError.plain "config is not set"), [], none)
  | some cfg =>
    match cfg.Validate with
    | some e => (.error e, [], some cfg)
    | none =>
      match cfg.subscriptionConfig with
      | none => (.error (GoError.plain "nil subscription config"), [], some cfg)
      | some sc =>
        match ensureTopic client sc.topic with
        | (.error e, tCalls) => (.error e, tCalls, some cfg)
        | (.ok _, tCalls) =>
          let cfg2 := applyDefaults cfg
          match cfg2.subscriptionConfig with
          | none => (.error (GoError.plain "nil subscription config"), tCalls, some cfg2)
          | some sc2 =>
            match ensureSubscription client sc2 with
            | (.error e, sCalls) => (.error e, tCalls ++ sCalls, some cfg2)
            | (.ok sub, sCalls) =>
              let settings :=
                match cfg2.receiveSettings with
                | some rs => rs
                | none => DefaultReceiveSettings
              (.ok { subscriptionName := sub.name, receiveSettings := settings },
               tCalls ++ sCalls, some cfg2)

/-- `pubsub.Message` restricted to the fields `Consume` reads: `ID` (used
only for logging) and `Data` (the opaque payload bytes). Ack state is
tracked in the loop's result, mirroring how `Ack`/`Nack` are calls made by
the loop. -/
structure Message where
  id : String
  data : List Nat
deriving DecidableEq, Repr

/-- The outcome of one `handler(ctx, msg.Data)` call: a nil error, a
non-nil error, or a panic carrying the panic value. -/
inductive HandlerOutcome where
  | ok
  | fail (e : GoError)
  | panics (v : String)
deriving DecidableEq, Repr

/-- `SubscriptionHandler`: the caller-supplied per-message handler,
as a function of the payload bytes. -/
def SubscriptionHandler := List Nat → HandlerOutcome

/-- One event observed by `Consume`'s select loop: a message arriving on
the capacity-1 internal channel, or `ctx.Done()` firing. A run of the
loop is determined by the sequence of events the select resolves. -/
inductive ConsumeEvent where
  | msg (m : Message)
  | done
deriving DecidableEq, Repr

/-- Whether a message was positively or negatively acknowledged. -/
inductive AckAction where
  | ack
  | nack
deriving DecidableEq, Repr

/-- Observable outcome of one `Consume` call on a finite event sequence:
the messages passed to the handler in order, the errors pushed on
`errChan` in order, the `Ack`/`Nack` calls in order, the two diagnostic
counters, whether the deferred `close(errChan)` ran, a panic propagating
out of the call (Go runs the deferred close while unwinding), and whether
the call ended at all (an exhausted event list leaves the select blocked). -/
structure ConsumeResult where
  invocations : List Message
  errorsSent : List GoError
  acks : List (Message × AckAction)
  messagesReceivedCount : Nat
  messagesProcessedCount : Nat
  errChanClosed : Bool
  panicked : Option String
  terminated : Bool
deriving DecidableEq, Repr

/-- `Consume`'s main loop (v2 subscriber): on a message, increment the
received counter and invoke the handler — a nil result increments the
processed counter, acks the message and continues; a non-nil result is
pushed on `errChan`, the message is nacked and the loop returns; a panic
propagates out of the call with nothing sent and no ack (there is no
recover in the loop), the deferred `close(errChan)` still running. On
`ctx.Done()` the loop returns silently. The deferred close runs on every
completed exit. -/
def Consume (handler : SubscriptionHandler) : List ConsumeEvent → ConsumeResult
  | [] =>
      { invocations := [], errorsSent := [], acks := []
        messagesReceivedCount := 0, messagesProcessedCount := 0
        errChanClosed := false, panicked := none, terminated := false }
  | ConsumeEvent.msg m :: rest =>
    match handler m.data with
    | .ok =>
        let r := Consume handler rest
        { r with
          invocations := m :: r.invocations
          acks := (m, AckAction.ack) :: r.acks
          messagesReceivedCount := r.messagesReceivedCount + 1
          messagesProcessedCount := r.messagesProcessedCount + 1 }
    | .fail e =>
        { invocations := [m], errorsSent := [e], acks := [(m, AckAction.nack)]
          messagesReceivedCount := 1, messagesProcessedCount := 0
          errChanClosed := true, panicked := none, terminated := true }
    | .panics v =>
        { invocations := [m], errorsSent := [], acks := []
          messagesReceivedCount := 1, messagesProcessedCount := 0
          errChanClosed := true, panicked := some v, terminated := true }
  | ConsumeEvent.done :: _ =>
      { invocations := [], errorsSent := [], acks := []
        messagesReceivedCount := 0, messagesProcessedCount := 0
        errChanClosed := true, panicked := none, terminated := true }

/-- Progress of one `Consume` call through the exclusive section:
before `s.mutex.Lock()` returns, holding the lock (the consume loop and
all handler invocations of that call happen here), after the unlock at
return. -/
inductive Phase where
  | waiting
  | running
  | finished
deriving DecidableEq, Repr

/-- State of two concurrent `Consume` calls on one `Subscriber`: who holds
`s.mutex`, and each call's phase. -/
structure ConsumePair where
  lockHeldBy : Option Bool
  phase0 : Phase
  phase1 : Phase
deriving DecidableEq, Repr

/-- Both calls issued, neither has acquired `s.mutex` yet. -/
def initPair : ConsumePair :=
  { lockHeldBy := none, phase0 := Phase.waiting, phase1 := Phase.waiting }

/-- Interleaving steps of the two calls: `s.mutex.Lock()` returns only
when no one holds the lock; the deferred `s.mutex.Unlock()` at return
releases it. -/
inductive MutexStep : ConsumePair → ConsumePair → Prop where
  | acquire0 (s : ConsumePair) :
      s.phase0 = Phase.waiting → s.lockHeldBy = none →
      MutexStep s { s with lockHeldBy := some false, phase0 := Phase.running }
  | acquire1 (s : ConsumePair) :
      s.phase1 = Phase.waiting → s.lockHeldBy = none →
      MutexStep s { s with lockHeldBy := some true, phase1 := Phase.running }
  | release0 (s : ConsumePair) :
      s.phase0 = Phase.running → s.lockHeldBy = some false →
      MutexStep s { s with lockHeldBy := none, phase0 := Phase.finished }
  | release1 (s : ConsumePair) :
      s.phase1 = Phase.running → s.lockHeldBy = some true →
      MutexStep s { s with lockHeldBy := none, phase1 := Phase.finished }

/-- States reachable from `initPair` by interleaving the two calls. -/
inductive ReachablePair : ConsumePair → Prop where
  | init : ReachablePair initPair
  | step {s s' : ConsumePair} : ReachablePair s → MutexStep s s' → ReachablePair s'

/-! Concrete instances used by witnesses. -/

def topicA : Topic := { name := "projects/test/topics/test-topic" }

def subA : Subscription :=
  { name := "projects/test/subscriptions/some-subscriber"
    topic := "projects/test/topics/test-topic" }

def clientOk : Client :=
  { getTopic := fun _ => Except.ok (some topicA)
    createTopic := fun n => Except.ok (some { name := n })
    createSubscription := fun cfg => Except.ok cfg
    updateSubscription := fun cfg => Except.ok cfg }

def clientFetchErr : Client :=
  { clientOk with getTopic := fun _ => Except.error (GoError.plain "boom") }

def clientSubExists : Client :=
  { clientOk with
    createSubscription := fun _ =>
      Except.error (GoError.statusErr StatusCode.alreadyExists "exists")
    updateSubscription := fun cfg => Except.ok { cfg with ackDeadlineSeconds := 30 } }

def clientSubCreateFails : Client :=
  { clientOk with
    createSubscription := fun _ => Except.error (GoError.plain "service down") }

def cfgValid : SubscriberConfig :=
  { subscriptionConfig := some subA, logger := some () }

/-- C3: `ensureSubscription` first attempts `CreateSubscription`; success
is returned as-is; an `AlreadyExists` failure switches to
`UpdateSubscription` with the same spec and returns that result
(subscription or error); a `NotFound` failure yields a descriptive error
naming the missing topic; any other failure is propagated as-is. -/
theorem ensureSubscription_spec (client : Client) (cfg : Subscription) :
    (∀ sub, client.createSubscription cfg = .ok sub →
       ensureSubscription client cfg = (.ok sub, [RemoteCall.createSubscription cfg]))
  ∧ (∀ msg, client.createSubscription cfg = .error (GoError.statusErr StatusCode.alreadyExists msg) →
       ensureSubscription client cfg =
         (client.updateSubscription cfg,
          [RemoteCall.createSubscription cfg, RemoteCall.updateSubscription cfg]))
  ∧ (∀ msg, client.createSubscription cfg = .error (GoError.statusErr StatusCode.notFound msg) →
       (ensureSubscription client cfg).1 =
         .error (GoError.plain ("topic " ++ cfg.topic ++ " not found")))
  ∧ (∀ n msg, client.createSubscription cfg = .error (GoError.statusErr (StatusCode.other n) msg) →
       (ensureSubscription client cfg).1 = .error (GoError.statusErr (StatusCode.other n) msg))
  ∧ (∀ msg, client.createSubscription cfg = .error (GoError.plain msg) →
       (ensureSubscription client cfg).1 = .error (GoError.plain msg)) := by
  refine ⟨?_, ?_, ?_, ?_, ?_⟩ <;> intro a h
  · simp [ensureSubscription, h]
  · simp [ensureSubscription, h]
  · simp [ensureSubscription, h]
  · intro hcreate
    simp [ensureSubscription, hcreate]
  · simp [ensureSubscription, h]

/-- Witness for C3: against a remote that answers `AlreadyExists` on
creation, `ensureSubscription` returns the update result. -/
theorem ensureSubscription_spec_witness :
    ensureSubscription clientSubExists subA =
      (Except.ok { subA with ackDeadlineSeconds := 30 },
       [RemoteCall.createSubscription subA, RemoteCall.updateSubscription subA]) :=
  (ensureSubscription_spec clientSubExists subA).2.1 "exists" rfl

/-- C4: `ensureTopic` propagates a fetch error without attempting
creation; on a fetch that returns an empty topic it attempts creation,
propagating a creation error; if creation also returns an empty topic it
reports that the topic does not exist; a non-empty fetched or created
topic yields nil. -/
theorem ensureTopic_spec (client : Client) (topicName : String) :
    (∀ e, client.getTopic topicName = .error e →
       ensureTopic client topicName = (.error e, [RemoteCall.getTopic topicName]))
  ∧ (∀ t, client.getTopic topicName = .ok t → isEmptyTopic t = true →
       RemoteCall.createTopic topicName ∈ (ensureTopic client topicName).2)
  ∧ (∀ t e, client.getTopic topicName = .ok t → isEmptyTopic t = true →
       client.createTopic topicName = .error e →
       (ensureTopic client topicName).1 = .error e)
  ∧ (∀ t t2, client.getTopic topicName = .ok t → isEmptyTopic t = true →
       client.createTopic topicName = .ok t2 → isEmptyTopic t2 = true →
       (ensureTopic client topicName).1 =
         .error (GoError.plain ("topic " ++ topicName ++ " does not exist")))
  ∧ (∀ t, client.getTopic topicName = .ok t → isEmptyTopic t = false →
       (ensureTopic client topicName).1 = .ok ())
  ∧ (∀ t t2, client.getTopic topicName = .ok t → isEmptyTopic t = true →
       client.createTopic topicName = .ok t2 → isEmptyTopic t2 = false →
       (ensureTopic client topicName).1 = .ok ()) := by
  refine ⟨?_, ?_, ?_, ?_, ?_, ?_⟩
  · intro e h
    simp [ensureTopic, h]
  · intro t h he
    cases h2 : client.createTopic topicName with
    | error e => simp [ensureTopic, h, he, h2]
    | ok t2 =>
      by_cases he2 : isEmptyTopic t2 <;> simp [ensureTopic, h, he, h2, he2]
  · intro t e h he h2
    simp [ensureTopic, h, he, h2]
  · intro t t2 h he h2 he2
    simp [ensureTopic, h, he, h2, he2]
  · intro t h he
    simp [ensureTopic, h, he]
  · intro t t2 h he h2 he2
    simp [ensureTopic, h, he, h2, he2]

/-- Witness for C4: a failing fetch is propagated and no creation is
attempted. -/
theorem ensureTopic_spec_witness :
    ensureTopic clientFetchErr "projects/test/topics/test-topic" =
      (Except.error (GoError.plain "boom"),
       [RemoteCall.getTopic "projects/test/topics/test-topic"]) :=
  (ensureTopic_spec clientFetchErr "projects/test/topics/test-topic").1
    (GoError.plain "boom") rfl

/-- The default retry policy injected by `applyDefaults`. -/
def defaultRetryPolicy : RetryPolicy :=
  { minimumBackoff := MinimumBackoff, maximumBackoff := MaximumBackoff }

/-- C5: a config without a retry policy has the package defaults
(200ms / 600s) injected by the default-application step, and the
constructor reconciles with the defaulted spec (the `CreateSubscription`
call carries the injected policy); a config that already carries a retry
policy is left unchanged by `applyDefaults`. -/
theorem applyDefaults_spec (cfg : SubscriberConfig) (sc : Subscription) :
    (cfg.subscriptionConfig = some sc → sc.retryPolicy = none →
       applyDefaults cfg =
         { cfg with
           subscriptionConfig := some
             { sc with retryPolicy := some defaultRetryPolicy } })
  ∧ (∀ p, cfg.subscriptionConfig = some sc → sc.retryPolicy = some p →
       applyDefaults cfg = cfg)
  ∧ MinimumBackoff = 200 * millisecond ∧ MaximumBackoff = 600 * second
  ∧ (∀ client, cfg.Validate = none → cfg.subscriptionConfig = some sc →
       sc.retryPolicy = none → (ensureTopic client sc.topic).1 = .ok () →
       RemoteCall.createSubscription { sc with retryPolicy := some defaultRetryPolicy } ∈
         (NewSubscriber client (some cfg)).2.1) := by
  refine ⟨?_, ?_, rfl, rfl, ?_⟩
  · intro hsc hrp
    simp [applyDefaults, hsc, hrp, defaultRetryPolicy]
  · intro p hsc hrp
    simp [applyDefaults, hsc, hrp]
  · intro client hv hsc hrp ht
    have hd : applyDefaults cfg =
        { cfg with
          subscriptionConfig := some
            { sc with retryPolicy := some defaultRetryPolicy } } := by
      simp [applyDefaults, hsc, hrp, defaultRetryPolicy]
    obtain ⟨tRes, tCalls⟩ : ∃ r c, ensureTopic client sc.topic = (r, c) :=
      ⟨_, _, rfl⟩
    simp only [NewSubscriber, hv, hsc]
    obtain ⟨c, hc⟩ : ∃ c, ensureTopic client sc.topic = (Except.ok (), c) := by
      obtain ⟨r, c, hrc⟩ : ∃ r c, ensureTopic client sc.topic = (r, c) := ⟨_, _, rfl⟩
      exact ⟨c, by rw [hrc] at ht ⊢; simp at ht; rw [ht]⟩
    rw [hc]
    simp only [hd]
    cases hcs : client.createSubscription { sc with retryPolicy := some defaultRetryPolicy } with
    | ok sub => simp [ensureSubscription, hcs]
    | error e =>
      cases e with
      | plain m => simp [ensureSubscription, hcs]
      | statusErr code m =>
        cases code with
        | alreadyExists =>
          cases hup : client.updateSubscription { sc with retryPolicy := some defaultRetryPolicy } with
          | ok s2 => simp [ensureSubscription, hcs, hup]
          | error e2 => simp [ensureSubscription, hcs, hup]
        | notFound => simp [ensureSubscription, hcs]
        | other n => simp [ensureSubscription, hcs]

/-- Config used by witnesses: valid, no retry policy. -/
def cfgNoPolicy : SubscriberConfig := cfgValid

/-- Witness for C5: the defaults are injected into a policy-free config. -/
theorem applyDefaults_spec_witness :
    applyDefaults cfgNoPolicy =
      { cfgNoPolicy with
        subscriptionConfig := some
          { subA with retryPolicy := some defaultRetryPolicy } } :=
  (applyDefaults_spec cfgNoPolicy subA).1 rfl rfl

/-- C6: `Validate` returns nil exactly when the subscription config is
present, the logger is present, the spec's topic is non-empty and the
spec's name is non-empty; otherwise it returns the first violated
assertion in that order. `NewSubscriber` rejects a nil config with
"config is not set", and any invalid config yields an error with no
remote call performed (the recorded call trace is empty). -/
theorem Validate_spec (client : Client) (cfg : SubscriberConfig) :
    (cfg.Validate = none ↔
       ∃ sc, cfg.subscriptionConfig = some sc ∧ cfg.logger.isSome = true ∧
         sc.topic ≠ "" ∧ sc.name ≠ "")
  ∧ (cfg.subscriptionConfig = none →
       cfg.Validate = some (GoError.plain "subscription config is not set"))
  ∧ (∀ sc, cfg.subscriptionConfig = some sc → cfg.logger = none →
       cfg.Validate = some (GoError.plain "subscription logger is not set"))
  ∧ (∀ sc, cfg.subscriptionConfig = some sc → cfg.logger.isSome = true →
       sc.topic = "" →
       cfg.Validate = some (GoError.plain "subscription topic is not set"))
  ∧ (∀ sc, cfg.subscriptionConfig = some sc → cfg.logger.isSome = true →
       sc.topic ≠ "" → sc.name = "" →
       cfg.Validate = some (GoError.plain "subscription id is not set"))
  ∧ NewSubscriber client none = (.error (GoError.plain "config is not set"), [], none)
  ∧ (∀ e, cfg.Validate = some e →
       NewSubscriber client (some cfg) = (.error e, [], some cfg)) := by
  refine ⟨?_, ?_, ?_, ?_, ?_, rfl, ?_⟩
  · cases hsc : cfg.subscriptionConfig with
    | none => simp [SubscriberConfig.Validate, failFastValidate, hsc]
    | some sc =>
      cases hl : cfg.logger with
      | none => simp [SubscriberConfig.Validate, failFastValidate, hsc, hl]
      | some u =>
        by_cases ht : sc.topic = "" <;> by_cases hn : sc.name = "" <;>
          simp [SubscriberConfig.Validate, failFastValidate, hsc, hl, ht, hn]
  · intro hsc
    simp [SubscriberConfig.Validate, failFastValidate, hsc]
  · intro sc hsc hl
    simp [SubscriberConfig.Validate, failFastValidate, hsc, hl]
  · intro sc hsc hl ht
    cases hl' : cfg.logger with
    | none => rw [hl'] at hl; simp at hl
    | some u => simp [SubscriberConfig.Validate, failFastValidate, hsc, hl', ht]
  · intro sc hsc hl ht hn
    cases hl' : cfg.logger with
    | none => rw [hl'] at hl; simp at hl
    | some u => simp [SubscriberConfig.Validate, failFastValidate, hsc, hl', ht, hn]
  · intro e hv
    simp [NewSubscriber, hv]

/-- A malformed config: subscription spec missing. -/
def cfgNoSpec : SubscriberConfig := { subscriptionConfig := none, logger := some () }

/-- Witness for C6: a config without a subscription spec fails validation
with the first assertion's message, and the constructor performs no
remote call on it. -/
theorem Validate_spec_witness :
    cfgNoSpec.Validate = some (GoError.plain "subscription config is not set") ∧
    NewSubscriber clientOk (some cfgNoSpec) =
      (.error (GoError.plain "subscription config is not set"), [], some cfgNoSpec) :=
  ⟨(Validate_spec clientOk cfgNoSpec).2.1 rfl,
   (Validate_spec clientOk cfgNoSpec).2.2.2.2.2.2
     (GoError.plain "subscription config is not set")
     ((Validate_spec clientOk cfgNoSpec).2.1 rfl)⟩

/-- C10: once validation passes and topic ensuring succeeds on a config
whose retry policy is nil, the caller-visible config object ends up with
exactly the default retry policy injected and nothing else changed — and
this holds whatever `ensureSubscription` returns, so the mutation remains
visible when reconciliation fails and `NewSubscriber` returns that
error. -/
theorem NewSubscriber_mutates_config (client : Client) (cfg : SubscriberConfig)
    (sc : Subscription)
    (hv : cfg.Validate = none) (hsc : cfg.subscriptionConfig = some sc)
    (hrp : sc.retryPolicy = none)
    (ht : (ensureTopic client sc.topic).1 = .ok ()) :
    ((NewSubscriber client (some cfg)).2.2 =
       some { cfg with
              subscriptionConfig := some
                { sc with retryPolicy := some defaultRetryPolicy } })
  ∧ (∀ e, (ensureSubscription client
             { sc with retryPolicy := some defaultRetryPolicy }).1 = .error e →
       (NewSubscriber client (some cfg)).1 = .error e) := by
  have hd : applyDefaults cfg =
      { cfg with
        subscriptionConfig := some
          { sc with retryPolicy := some defaultRetryPolicy } } := by
    simp [applyDefaults, hsc, hrp, defaultRetryPolicy]
  obtain ⟨c, hc⟩ : ∃ c, ensureTopic client sc.topic = (Except.ok (), c) := by
    obtain ⟨r, c, hrc⟩ : ∃ r c, ensureTopic client sc.topic = (r, c) := ⟨_, _, rfl⟩
    exact ⟨c, by rw [hrc] at ht ⊢; simp at ht; rw [ht]⟩
  constructor
  · simp only [NewSubscriber, hv, hsc, hc]
    simp only [hd]
    cases hes : ensureSubscription client
        { sc with retryPolicy := some defaultRetryPolicy } with
    | mk r sCalls => cases r <;> simp
  · intro e he
    simp only [NewSubscriber, hv, hsc, hc]
    simp only [hd]
    obtain ⟨sCalls, hes⟩ : ∃ sCalls, ensureSubscription client
        { sc with retryPolicy := some defaultRetryPolicy } = (.error e, sCalls) := by
      obtain ⟨r, sc2, hrc⟩ : ∃ r sc2, ensureSubscription client
          { sc with retryPolicy := some defaultRetryPolicy } = (r, sc2) := ⟨_, _, rfl⟩
      exact ⟨sc2, by rw [hrc] at he ⊢; simp at he; rw [he]⟩
    rw [hes]

/-- Witness for C10: against a remote whose subscription creation fails
with a plain error, the constructor returns that error yet the caller's
config already carries the injected default retry policy. -/
theorem NewSubscriber_mutates_config_witness :
    ((NewSubscriber clientSubCreateFails (some cfgValid)).2.2 =
       some { cfgValid with
              subscriptionConfig := some
                { subA with retryPolicy := some defaultRetryPolicy } })
  ∧ (NewSubscriber clientSubCreateFails (some cfgValid)).1 =
      .error (GoError.plain "service down") :=
  ⟨(NewSubscriber_mutates_config clientSubCreateFails cfgValid subA
      rfl rfl rfl rfl).1,
   (NewSubscriber_mutates_config clientSubCreateFails cfgValid subA
      rfl rfl rfl rfl).2 (GoError.plain "service down") rfl⟩

/-- Helper: whenever the `Consume` call ends (normally or by a panic
unwinding), the deferred `close(errChan)` has run. -/
theorem Consume_terminated_closed (handler : SubscriptionHandler) :
    ∀ events : List ConsumeEvent,
      (Consume handler events).terminated = true →
      (Consume handler events).errChanClosed = true := by
  intro events
  induction events with
  | nil => simp [Consume]
  | cons ev rest ih =>
    cases ev with
    | done => simp [Consume]
    | msg m =>
      cases h : handler m.data with
      | ok => simpa [Consume, h] using ih
      | fail e => simp [Consume, h]
      | panics v => simp [Consume, h]

/-- Sample messages for witnesses. -/
def msgA : Message := { id := "m1", data := [1] }

def msgB : Message := { id := "m2", data := [2] }

/-- A handler that fails on payload `[2]` and succeeds elsewhere. -/
def failOn2 : SubscriptionHandler :=
  fun d => if d = [2] then HandlerOutcome.fail (GoError.plain "bad payload")
           else HandlerOutcome.ok

/-- C1: if the handler fails on a message after a prefix of successfully
handled ones, exactly that one error is sent on `errChan`, the failing
message is nacked (all earlier ones acked), the call ends with `errChan`
closed, and the handler is never invoked again in that call, whatever
events were still pending. -/
theorem Consume_handler_error (handler : SubscriptionHandler) (pre : List Message)
    (m : Message) (e : GoError) (rest : List ConsumeEvent)
    (hpre : ∀ p ∈ pre, handler p.data = HandlerOutcome.ok)
    (hm : handler m.data = HandlerOutcome.fail e) :
    (Consume handler (pre.map ConsumeEvent.msg ++ ConsumeEvent.msg m :: rest)).errorsSent = [e]
  ∧ (Consume handler (pre.map ConsumeEvent.msg ++ ConsumeEvent.msg m :: rest)).acks =
      pre.map (fun p => (p, AckAction.ack)) ++ [(m, AckAction.nack)]
  ∧ (Consume handler (pre.map ConsumeEvent.msg ++ ConsumeEvent.msg m :: rest)).invocations =
      pre ++ [m]
  ∧ (Consume handler (pre.map ConsumeEvent.msg ++ ConsumeEvent.msg m :: rest)).errChanClosed = true
  ∧ (Consume handler (pre.map ConsumeEvent.msg ++ ConsumeEvent.msg m :: rest)).terminated = true
  ∧ (Consume handler (pre.map ConsumeEvent.msg ++ ConsumeEvent.msg m :: rest)).panicked = none := by
  induction pre with
  | nil => simp [Consume, hm]
  | cons p ps ih =>
    have hp : handler p.data = HandlerOutcome.ok := hpre p (by simp)
    have ih' := ih (fun q hq => hpre q (by simp [hq]))
    simpa [Consume, hp] using ih'

/-- Witness for C1: with `failOn2`, a successful message followed by the
failing one yields exactly the handler's error, an ack then a nack, and a
closed channel. -/
theorem Consume_handler_error_witness :
    (Consume failOn2 [ConsumeEvent.msg msgA, ConsumeEvent.msg msgB]).errorsSent =
      [GoError.plain "bad payload"]
  ∧ (Consume failOn2 [ConsumeEvent.msg msgA, ConsumeEvent.msg msgB]).acks =
      [(msgA, AckAction.ack), (msgB, AckAction.nack)] := by
  have h := Consume_handler_error failOn2 [msgA] msgB (GoError.plain "bad payload") []
    (by intro p hp; simp at hp; subst hp; rfl) rfl
  exact ⟨h.1, h.2.1⟩

/-- C7: over any run of the loop, the received counter equals the number
of handler invocations, the processed counter equals the number of
invocations on which the handler returned nil, and the ack/nack calls are
exactly one ack per nil-returning invocation and one nack per
error-returning invocation, in order (a panicking invocation acknowledges
nothing). -/
theorem Consume_counters (handler : SubscriptionHandler) (events : List ConsumeEvent) :
    (Consume handler events).messagesReceivedCount =
      (Consume handler events).invocations.length
  ∧ (Consume handler events).messagesProcessedCount =
      ((Consume handler events).invocations.filter
        (fun m => decide (handler m.data = HandlerOutcome.ok))).length
  ∧ (Consume handler events).acks =
      (Consume handler events).invocations.filterMap (fun m =>
        match handler m.data with
        | HandlerOutcome.ok => some (m, AckAction.ack)
        | HandlerOutcome.fail _ => some (m, AckAction.nack)
        | HandlerOutcome.panics _ => none) := by
  induction events with
  | nil => simp [Consume]
  | cons ev rest ih =>
    cases ev with
    | done => simp [Consume]
    | msg m =>
      cases h : handler m.data with
      | ok =>
        simp only [Consume, h]
        exact ⟨by simp [ih.1], by simp [h, ih.2.1], by simp [h, ih.2.2]⟩
      | fail e => simp [Consume, h]
      | panics v => simp [Consume, h]

/-- C8: when the context is canceled after a prefix of successfully
handled messages (no handler error or panic pending), the call returns
through the `ctx.Done()` branch with no error ever sent and `errChan`
closed — as on every exit path. -/
theorem Consume_cancellation (handler : SubscriptionHandler) (pre : List Message)
    (rest : List ConsumeEvent)
    (hpre : ∀ p ∈ pre, handler p.data = HandlerOutcome.ok) :
    (Consume handler (pre.map ConsumeEvent.msg ++ ConsumeEvent.done :: rest)).errorsSent = []
  ∧ (Consume handler (pre.map ConsumeEvent.msg ++ ConsumeEvent.done :: rest)).errChanClosed = true
  ∧ (Consume handler (pre.map ConsumeEvent.msg ++ ConsumeEvent.done :: rest)).terminated = true
  ∧ (Consume handler (pre.map ConsumeEvent.msg ++ ConsumeEvent.done :: rest)).panicked = none
  ∧ (∀ events : List ConsumeEvent, (Consume handler events).terminated = true →
       (Consume handler events).errChanClosed = true) := by
  refine ⟨?_, ?_, ?_, ?_, Consume_terminated_closed handler⟩ <;>
  · induction pre with
    | nil => simp [Consume]
    | cons p ps ih =>
      have hp : handler p.data = HandlerOutcome.ok := hpre p (by simp)
      have ih' := ih (fun q hq => hpre q (by simp [hq]))
      simpa [Consume, hp] using ih'

/-- Witness for C8: an always-nil handler given one message and then
cancellation sends nothing and closes the channel. -/
theorem Consume_cancellation_witness :
    (Consume (fun _ => HandlerOutcome.ok)
       [ConsumeEvent.msg msgA, ConsumeEvent.done]).errorsSent = []
  ∧ (Consume (fun _ => HandlerOutcome.ok)
       [ConsumeEvent.msg msgA, ConsumeEvent.done]).errChanClosed = true := by
  have h := Consume_cancellation (fun _ => HandlerOutcome.ok) [msgA] []
    (by intro p hp; rfl)
  exact ⟨h.1, h.2.1⟩

/-- C2 (divergence witness): the loop contains no `recover`, so a handler
panic propagates out of the `Consume` call: the panic value escapes,
nothing is sent on `errChan` (in particular no error marked
"panic in subscription handler", which subscriber_test.go requires), the
message is neither acked nor nacked, and only the deferred close runs. -/
theorem Consume_panic_unrecovered :
    (Consume (fun _ => HandlerOutcome.panics "boom") [ConsumeEvent.msg msgA]).panicked =
      some "boom"
  ∧ (Consume (fun _ => HandlerOutcome.panics "boom") [ConsumeEvent.msg msgA]).errorsSent = []
  ∧ (Consume (fun _ => HandlerOutcome.panics "boom") [ConsumeEvent.msg msgA]).acks = []
  ∧ (Consume (fun _ => HandlerOutcome.panics "boom") [ConsumeEvent.msg msgA]).errChanClosed = true
  ∧ (Consume (fun _ => HandlerOutcome.panics "boom") [ConsumeEvent.msg msgA]).messagesReceivedCount = 1 :=
  ⟨rfl, rfl, rfl, rfl, rfl⟩

/-- Helper: in every reachable interleaving of two `Consume` calls, a call
in its exclusive section is the lock holder. -/
theorem mutex_invariant {s : ConsumePair} (h : ReachablePair s) :
    (s.phase0 = Phase.running → s.lockHeldBy = some false)
  ∧ (s.phase1 = Phase.running → s.lockHeldBy = some true) := by
  induction h with
  | init => simp [initPair]
  | step hr hstep ih =>
    cases hstep with
    | acquire0 h1 h2 => simp_all
    | acquire1 h1 h2 => simp_all
    | release0 h1 h2 =>
      refine ⟨by simp_all, ?_⟩
      intro hrun
      simp only at hrun
      have := ih.2 hrun
      rw [this] at h2
      simp at h2
    | release1 h1 h2 =>
      refine ⟨?_, by simp_all⟩
      intro hrun
      simp only at hrun
      have := ih.1 hrun
      rw [this] at h2
      simp at h2

/-- C9: in every reachable state of two concurrent `Consume` calls on one
`Subscriber`, the two calls are never simultaneously inside the exclusive
section (so their handler invocations never overlap), and while the first
call holds `s.mutex` the second cannot leave its `Lock()` call. -/
theorem Consume_mutual_exclusion (s : ConsumePair) (h : ReachablePair s) :
    ¬(s.phase0 = Phase.running ∧ s.phase1 = Phase.running)
  ∧ (∀ s', MutexStep s s' → s.lockHeldBy = some false →
       s.phase1 = Phase.waiting → s'.phase1 = Phase.waiting) := by
  constructor
  · rintro ⟨h0, h1⟩
    have hinv := mutex_invariant h
    have e0 := hinv.1 h0
    have e1 := hinv.2 h1
    rw [e0] at e1
    simp at e1
  · intro s' hs hlock hw
    cases hs with
    | acquire0 h1 h2 => simpa using hw
    | acquire1 h1 h2 => rw [hlock] at h2; simp at h2
    | release0 h1 h2 => simpa using hw
    | release1 h1 h2 => rw [hlock] at h2; simp at h2

/-- The state just after the first call acquired the lock. -/
def pairAfterAcquire0 : ConsumePair :=
  { lockHeldBy := some false, phase0 := Phase.running, phase1 := Phase.waiting }

/-- Witness for C9: with the first call inside the exclusive section, the
second is not. -/
theorem Consume_mutual_exclusion_witness :
    ¬(pairAfterAcquire0.phase0 = Phase.running ∧
      pairAfterAcquire0.phase1 = Phase.running) :=
  (Consume_mutual_exclusion pairAfterAcquire0
    (ReachablePair.step ReachablePair.init
      (MutexStep.acquire0 initPair rfl rfl))).1

end Gopack.PubSub
